import Mathlib

/-!
Verification of the uzu memcached binary-protocol client
(`uzu/tools/memcached.py`, `uzu/tools/structure.py`) and the couchbase
bucket adapter (`uzu/db/driver/couchbase/bucket.py`).

Python byte strings are modelled as `List Nat` (one `Nat` per byte).
Fallible code is modelled with `Except PyError`; the asynchronous socket
is modelled by passing the inbound byte stream explicitly: each operation
receives the bytes the server will answer with.  All mutations performed
by the bucket adapter are modelled by explicit state passing, in the
order the Python statements execute them.
-/

namespace Uzu

/-- A Python `bytes` value: a list of byte values. -/
abbrev Bytes := List Nat

/-- The exception kinds the embedded code can raise, plus the two names the
spec's error taxonomy (spec section 7) introduces.  `structError` is the
`struct.error` raised by Python's `struct` module inside
`PackableStructureBase.pack`/`unpack`; `assertionError`, `keyError` and
`attributeError` are the builtin Python exceptions; `requestError` and
`serverError` are defined in `uzu/tools/memcached.py` lines 31-35;
`streamEnded` stands for the tornado stream never delivering the requested
bytes.  `specFormatError` and `specConflictError` are modelled from the
spec: the spec names a `FormatError` and a `ConflictError`, but no class of
either name exists anywhere in the repository, and the embedded code never
produces these two values; they exist only so theorems can compare the
errors the code actually raises against the spec's taxonomy. -/
inductive PyError where
  | structError
  | assertionError
  | keyError
  | attributeError
  | streamEnded
  | requestError (reason : String)
  | serverError (reason : String)
  | specFormatError
  | specConflictError
  deriving Repr, DecidableEq

/-- Equality of `Except` results is decidable, so that concrete runs of the
embedded code can be settled by evaluation. -/
instance {ε α : Type} [DecidableEq ε] [DecidableEq α] : DecidableEq (Except ε α) := fun x y =>
  match x, y with
  | .ok a, .ok b =>
    if h : a = b then .isTrue (congrArg Except.ok h)
    else .isFalse (fun he => h (Except.ok.inj he))
  | .error a, .error b =>
    if h : a = b then .isTrue (congrArg Except.error h)
    else .isFalse (fun he => h (Except.error.inj he))
  | .ok _, .error _ => .isFalse (fun he => Except.noConfusion he)
  | .error _, .ok _ => .isFalse (fun he => Except.noConfusion he)

/-- Discriminator: is this error a `RequestError`? -/
def PyError.isRequestError : PyError → Bool
  | .requestError _ => true
  | _ => false

/-- Discriminator: is this error a `ServerError`? -/
def PyError.isServerError : PyError → Bool
  | .serverError _ => true
  | _ => false

/-- Big-endian encoding of a value into `w` bytes, as Python's `struct`
produces for the integer format codes (`B` is `beBytes 1`, `H` is
`beBytes 2`, `I` is `beBytes 4`). -/
def beBytes : Nat → Nat → Bytes
  | 0, _ => []
  | w + 1, v => beBytes w (v / 256) ++ [v % 256]

/-- Python `struct`'s fixed-size `s` format: the byte string is truncated
to `k` bytes or padded with null bytes, never an error. -/
def packS (k : Nat) (s : Bytes) : Bytes :=
  s.take k ++ List.replicate (k - s.length) 0

/-- The request header, `RequestHeader = packable_structure(..., "!BBHBBHI4s8s")`
(`uzu/tools/memcached.py` lines 38-52): 24 bytes, big-endian; `opaque`
(named `opq` here, `opaque` not being a legal Lean identifier) and `cas`
are fixed-length byte strings (`4s`, `8s`). -/
structure RequestHeader where
  magic : Nat
  opcode : Nat
  key_len : Nat
  extra_len : Nat
  data_type : Nat
  vbucket_id : Nat
  body_len : Nat
  opq : Bytes
  cas : Bytes
  deriving Repr, DecidableEq

/-- The response header, same format string as the request header but with
`status` in place of `vbucket_id` (`uzu/tools/memcached.py` lines 54-68). -/
structure ResponseHeader where
  magic : Nat
  opcode : Nat
  key_len : Nat
  extra_len : Nat
  data_type : Nat
  status : Nat
  body_len : Nat
  opq : Bytes
  cas : Bytes
  deriving Repr, DecidableEq

/-- `RequestHeader.pack`: Python's `Struct("!BBHBBHI4s8s").pack` raises
`struct.error` when any integer field does not fit its declared width
(which field is checked first is not observable, every failure being the
same `struct.error`, so the ranges are checked together here); otherwise
it produces the 24-byte big-endian encoding. -/
def RequestHeader.pack (h : RequestHeader) : Except PyError Bytes :=
  if h.magic < 256 ∧ h.opcode < 256 ∧ h.key_len < 65536 ∧ h.extra_len < 256 ∧
      h.data_type < 256 ∧ h.vbucket_id < 65536 ∧ h.body_len < 4294967296 then
    .ok (beBytes 1 h.magic ++ beBytes 1 h.opcode ++ beBytes 2 h.key_len ++
      beBytes 1 h.extra_len ++ beBytes 1 h.data_type ++ beBytes 2 h.vbucket_id ++
      beBytes 4 h.body_len ++ packS 4 h.opq ++ packS 8 h.cas)
  else .error .structError

/-- `RequestHeader.unpack`: `Struct.unpack` raises `struct.error` unless
given exactly 24 bytes; otherwise it decodes each field big-endian (the
inner match's fallback arm is unreachable, the guard having pinned the
length to 24). -/
def RequestHeader.unpack (data : Bytes) : Except PyError RequestHeader :=
  if data.length = 24 then
    match data with
    | m :: oc :: k1 :: k2 :: el :: dt :: v1 :: v2 :: b1 :: b2 :: b3 :: b4 :: rest =>
      .ok ⟨m, oc, k1 * 256 + k2, el, dt, v1 * 256 + v2,
        ((b1 * 256 + b2) * 256 + b3) * 256 + b4, rest.take 4, (rest.drop 4).take 8⟩
    | _ => .error .structError
  else .error .structError

/-- `ResponseHeader.pack`, same layout as `RequestHeader.pack`. -/
def ResponseHeader.pack (h : ResponseHeader) : Except PyError Bytes :=
  if h.magic < 256 ∧ h.opcode < 256 ∧ h.key_len < 65536 ∧ h.extra_len < 256 ∧
      h.data_type < 256 ∧ h.status < 65536 ∧ h.body_len < 4294967296 then
    .ok (beBytes 1 h.magic ++ beBytes 1 h.opcode ++ beBytes 2 h.key_len ++
      beBytes 1 h.extra_len ++ beBytes 1 h.data_type ++ beBytes 2 h.status ++
      beBytes 4 h.body_len ++ packS 4 h.opq ++ packS 8 h.cas)
  else .error .structError

/-- `ResponseHeader.unpack`, same layout as `RequestHeader.unpack`. -/
def ResponseHeader.unpack (data : Bytes) : Except PyError ResponseHeader :=
  if data.length = 24 then
    match data with
    | m :: oc :: k1 :: k2 :: el :: dt :: s1 :: s2 :: b1 :: b2 :: b3 :: b4 :: rest =>
      .ok ⟨m, oc, k1 * 256 + k2, el, dt, s1 * 256 + s2,
        ((b1 * 256 + b2) * 256 + b3) * 256 + b4, rest.take 4, (rest.drop 4).take 8⟩
    | _ => .error .structError
  else .error .structError

/-- `SetExtra(flags, expiration).pack()` with format `"!II"`
(`uzu/tools/memcached.py` line 74). -/
def SetExtra.pack (flags expiration : Nat) : Except PyError Bytes :=
  if flags < 4294967296 ∧ expiration < 4294967296 then
    .ok (beBytes 4 flags ++ beBytes 4 expiration)
  else .error .structError

/-- The slots of `GetExtra = packable_structure("GetExtra", ("flags"), "!I")`
(`uzu/tools/memcached.py` line 73).  The fields argument `("flags")` is the
plain string `"flags"`, not a one-element tuple, so
`tuple(fields)` in `packable_structure` produces five one-character slots. -/
def getExtraSlots : List String := ["f", "l", "a", "g", "s"]

/-- `StructureBase.__init__` on positional arguments
(`uzu/tools/structure.py` lines 24-28): `assert(len(args) == len(self.__slots__))`,
then each slot is bound to the corresponding argument. -/
def structInit (slots : List String) (args : List Nat) :
    Except PyError (List (String × Nat)) :=
  if args.length = slots.length then .ok (slots.zip args)
  else .error .assertionError

/-- `GetExtra.unpack(data)`: `Struct("!I").unpack` needs exactly 4 bytes and
yields one integer, which is then passed positionally to
`StructureBase.__init__` against `GetExtra`'s five slots. -/
def GetExtra.unpack (data : Bytes) : Except PyError (List (String × Nat)) :=
  if data.length = 4 then
    structInit getExtraSlots
      [((data.getD 0 0 * 256 + data.getD 1 0) * 256 + data.getD 2 0) * 256 + data.getD 3 0]
  else .error .structError

/-- The `status_reason` table of `uzu/tools/memcached.py` lines 77-96;
`none` models the `KeyError` a Python dict lookup raises on a missing key. -/
def status_reason (s : Nat) : Option String :=
  match s with
  | 0x0000 => some "no error"
  | 0x0001 => some "key not found"
  | 0x0002 => some "key exist"
  | 0x0003 => some "value too large"
  | 0x0004 => some "invalid arguments"
  | 0x0005 => some "item not stored"
  | 0x0006 => some "incr/decr on non-numeric value"
  | 0x0007 => some "the vbucket belong to another server"
  | 0x0008 => some "authentification error"
  | 0x0009 => some "authentification continue"
  | 0x0020 => some "authentification required / not successful"
  | 0x0021 => some "further authentification step required"
  | 0x0081 => some "unknown command"
  | 0x0082 => some "out of memory"
  | 0x0083 => some "not supported"
  | 0x0084 => some "internal error"
  | 0x0085 => some "busy"
  | 0x0086 => some "temporary failure"
  | _ => none

/-- A sent request (`Request = structure("Request", ...)`,
`uzu/tools/memcached.py` line 70). -/
structure Request where
  header : RequestHeader
  extra : Bytes
  key : Bytes
  value : Bytes
  deriving Repr, DecidableEq

/-- A received response (`Response = structure("Response", ...)`,
`uzu/tools/memcached.py` line 71). -/
structure Response where
  request : Request
  header : ResponseHeader
  extra : Bytes
  key : Bytes
  value : Bytes
  deriving Repr, DecidableEq

/-- Reading `n` bytes from the inbound stream (`IOStream.read_bytes`): the
first `n` bytes are consumed; if the stream never carries `n` bytes the
coroutine never resumes, modelled as the `streamEnded` failure. -/
def streamRead (n : Nat) (s : Bytes) : Except PyError (Bytes × Bytes) :=
  if n ≤ s.length then .ok (s.take n, s.drop n) else .error .streamEnded

/-- `Memcached.send_package` (`uzu/tools/memcached.py` lines 115-169):
builds the request header with `magic = 0x80` and
`body_len = len(extra + key + value)`, packs it, and writes first the
packed header and then `extra + key + value`.  The returned pair is the
`Request` object and the concatenation of the bytes written. -/
def Memcached.send_package (opcode : Nat) (extra key value : Bytes)
    (data_type vbucket_id : Nat) (opq cas : Bytes) :
    Except PyError (Request × Bytes) :=
  let header : RequestHeader :=
    ⟨0x80, opcode, key.length, extra.length, data_type, vbucket_id,
      (extra ++ key ++ value).length, opq, cas⟩
  match header.pack with
  | .error e => .error e
  | .ok packed => .ok (⟨header, extra, key, value⟩, packed ++ (extra ++ key ++ value))

/-- `Memcached.receive_package` (`uzu/tools/memcached.py` lines 171-186):
reads 24 header bytes, unpacks them, reads `body_len` further bytes and
splits them as `extra = body[:extra_len]`,
`key = body[extra_len : extra_len + key_len]`, `value` the remainder. -/
def Memcached.receive_package (request : Request) (stream : Bytes) :
    Except PyError (Response × Bytes) :=
  match streamRead 24 stream with
  | .error e => .error e
  | .ok (packed_header, rest) =>
    match ResponseHeader.unpack packed_header with
    | .error e => .error e
    | .ok header =>
      match streamRead header.body_len rest with
      | .error e => .error e
      | .ok (body, rest2) =>
        .ok (⟨request, header,
          body.take header.extra_len,
          (body.drop header.extra_len).take header.key_len,
          body.drop (header.extra_len + header.key_len)⟩, rest2)

/-- `Memcached.query` (`uzu/tools/memcached.py` lines 188-201): one send,
one receive; status `0x0000` returns the response, any other status
raises — `ServerError(status_reason[status])` above `0x0080`,
`RequestError(status_reason[status])` otherwise, where the
`status_reason[status]` dict lookup itself raises `KeyError` when the
status is not in the table.  `data_type`, `vbucket_id` and `opaque` keep
their `send_package` defaults. -/
def Memcached.query (opcode : Nat) (extra key value : Bytes) (cas : Bytes)
    (stream : Bytes) : Except PyError Response :=
  match Memcached.send_package opcode extra key value 0 0 (List.replicate 4 0) cas with
  | .error e => .error e
  | .ok (request, _written) =>
    match Memcached.receive_package request stream with
    | .error e => .error e
    | .ok (response, _rest) =>
      if response.header.status ≠ 0 then
        if response.header.status > 0x80 then
          match status_reason response.header.status with
          | some reason => .error (.serverError reason)
          | none => .error .keyError
        else
          match status_reason response.header.status with
          | some reason => .error (.requestError reason)
          | none => .error .keyError
      else .ok response

/-- Python truthiness of a `bytes` value: non-empty is `True`, content
notwithstanding (`bool(b"\x00" * 8)` is `True`). -/
def pyBytesTruthy (b : Bytes) : Bool := !b.isEmpty

/-- `Memcached.get` (`uzu/tools/memcached.py` lines 207-225):
`assert key`, `query(0x00, key=key)`, then
`response.extra = GetExtra.unpack(response.extra)`. -/
def Memcached.get (key stream : Bytes) :
    Except PyError (Response × List (String × Nat)) :=
  if key.isEmpty then .error .assertionError
  else
    match Memcached.query 0x00 [] key [] (List.replicate 8 0) stream with
    | .error e => .error e
    | .ok response =>
      match GetExtra.unpack response.extra with
      | .error e => .error e
      | .ok unpacked_extra => .ok (response, unpacked_extra)

/-- `Memcached.set` (`uzu/tools/memcached.py` lines 231-269): `assert(key)`,
`extra = SetExtra(flags, expiration).pack()`, `query(0x01, ...)`,
`assert(response.header.cas)` — the last assert testing Python truthiness
of the 8-byte `cas` byte string. -/
def Memcached.set (key value cas : Bytes) (flags expiration : Nat)
    (stream : Bytes) : Except PyError Response :=
  if key.isEmpty then .error .assertionError
  else
    match SetExtra.pack flags expiration with
    | .error e => .error e
    | .ok extra =>
      match Memcached.query 0x01 extra key value cas stream with
      | .error e => .error e
      | .ok response =>
        if pyBytesTruthy response.header.cas then .ok response
        else .error .assertionError

/-- `Memcached.add` (`uzu/tools/memcached.py` lines 271-310), identical to
`set` except for opcode `0x02`. -/
def Memcached.add (key value cas : Bytes) (flags expiration : Nat)
    (stream : Bytes) : Except PyError Response :=
  if key.isEmpty then .error .assertionError
  else
    match SetExtra.pack flags expiration with
    | .error e => .error e
    | .ok extra =>
      match Memcached.query 0x02 extra key value cas stream with
      | .error e => .error e
      | .ok response =>
        if pyBytesTruthy response.header.cas then .ok response
        else .error .assertionError

/-- `Memcached.replace` (`uzu/tools/memcached.py` lines 312-350), identical
to `set` except for opcode `0x03`. -/
def Memcached.replace (key value cas : Bytes) (flags expiration : Nat)
    (stream : Bytes) : Except PyError Response :=
  if key.isEmpty then .error .assertionError
  else
    match SetExtra.pack flags expiration with
    | .error e => .error e
    | .ok extra =>
      match Memcached.query 0x03 extra key value cas stream with
      | .error e => .error e
      | .ok response =>
        if pyBytesTruthy response.header.cas then .ok response
        else .error .assertionError

/-- `Memcached.delete` (`uzu/tools/memcached.py` lines 352-359):
`assert(key)` then `query(0x04, key=key)`. -/
def Memcached.delete (key stream : Bytes) : Except PyError Response :=
  if key.isEmpty then .error .assertionError
  else Memcached.query 0x04 [] key [] (List.replicate 8 0) stream

/-- `Meta = structure("Meta", ("key", "cas"))`
(`uzu/db/driver/couchbase/bucket.py` line 18). -/
structure Meta where
  key : Bytes
  cas : Bytes
  deriving Repr, DecidableEq

/-- A schema entry as the bucket adapter sees it: `meta` is the
`getattr(entry, "meta", None)` attribute, and `payload` is the serialized
document `json.dumps({name: encode_field(value, ...)})` that `store` sends
as the protocol `value`; the claims under verification quantify over the
document only as opaque bytes, so the JSON text is carried as such. -/
structure Entry where
  meta : Option Meta
  payload : Bytes
  deriving Repr, DecidableEq

/-- One lowercase hexadecimal digit, as Python's `%x` rendering:
ASCII `0`-`9` for 0-9 and ASCII `a`-`f` for 10-15. -/
def hexDigit (n : Nat) : Nat := if n < 10 then 48 + n else 87 + n

/-- Big-endian, fixed-width lowercase hexadecimal rendering of a number. -/
def natToHexBE : Nat → Nat → Bytes
  | 0, _ => []
  | w + 1, v => natToHexBE w (v / 16) ++ [hexDigit (v % 16)]

/-- `uuid4().hex` (`uzu/db/driver/couchbase/bucket.py` line 113): the
128-bit identifier — its randomness is modelled as the explicit argument
`u` — rendered as 32 lowercase hexadecimal characters. -/
def uuid4Hex (u : Nat) : Bytes := natToHexBE 32 u

/-- Numeric value of a big-endian hexadecimal digit string (the inverse
reading of `uuid4Hex`, used to state that the rendering is faithful). -/
def hexDigitValue (c : Nat) : Nat := if c < 58 then c - 48 else c - 87

/-- Numeric value of a big-endian lowercase hexadecimal byte string. -/
def hexValue (s : Bytes) : Nat :=
  s.foldl (fun acc c => acc * 16 + hexDigitValue c) 0

/-- The bucket's `self._cache` dict, as an association list; `dictSet`
models `self._cache[key] = entry`. -/
def dictSet (cache : List (Bytes × Entry)) (k : Bytes) (v : Entry) :
    List (Bytes × Entry) :=
  cache.filter (fun p => !(p.1 == k)) ++ [(k, v)]

/-- `key in self._cache`. -/
def dictHasKey (cache : List (Bytes × Entry)) (k : Bytes) : Bool :=
  cache.any (fun p => p.1 == k)

/-- `del self._cache[key]` once the key is known to be present. -/
def dictDel (cache : List (Bytes × Entry)) (k : Bytes) :
    List (Bytes × Entry) :=
  cache.filter (fun p => !(p.1 == k))

/-- `Bucket.store` (`uzu/db/driver/couchbase/bucket.py` lines 97-116).
With a `meta`: `replace(meta.key, doc, entry.meta.cas)` then
`entry.meta.cas = response.header.cas`.  Without one: `key = uuid4().hex`,
`add(key, doc)`, `entry.meta = Meta(key, response.header.cas)`,
`self._cache[key] = entry`.  The result is the cache, the entry and the
exception (if one was raised); an exception propagates out of the
coroutine before any of the mutations that follow it in the source, so on
failure cache and entry are returned as received. -/
def Bucket.store (cache : List (Bytes × Entry)) (entry : Entry) (uuid : Nat)
    (stream : Bytes) : List (Bytes × Entry) × Entry × Option PyError :=
  match entry.meta with
  | some m =>
    match Memcached.replace m.key entry.payload m.cas 0 0 stream with
    | .error e => (cache, entry, some e)
    | .ok response =>
      (cache, { entry with meta := some ⟨m.key, response.header.cas⟩ }, none)
  | none =>
    match Memcached.add (uuid4Hex uuid) entry.payload (List.replicate 8 0) 0 0 stream with
    | .error e => (cache, entry, some e)
    | .ok response =>
      let entry1 : Entry := { entry with meta := some ⟨uuid4Hex uuid, response.header.cas⟩ }
      (dictSet cache (uuid4Hex uuid) entry1, entry1, none)

/-- `Bucket.remove` (`uzu/db/driver/couchbase/bucket.py` lines 118-122):
`delete(entry.key)` — where `entry.key` is the `meta.key` property, an
`AttributeError` if the entry has no `meta` — then `del self._cache[entry.key]`
(a `KeyError` if the key is not cached) and `del entry.meta`. -/
def Bucket.remove (cache : List (Bytes × Entry)) (entry : Entry)
    (stream : Bytes) : List (Bytes × Entry) × Entry × Option PyError :=
  match entry.meta with
  | none => (cache, entry, some .attributeError)
  | some m =>
    match Memcached.delete m.key stream with
    | .error e => (cache, entry, some e)
    | .ok _response =>
      if dictHasKey cache m.key then
        (dictDel cache m.key, { entry with meta := none }, none)
      else (cache, entry, some .keyError)

/-- The `self._cache[key]` dict lookup, as a value. -/
def dictGet (cache : List (Bytes × Entry)) (k : Bytes) : Option Entry :=
  (cache.find? (fun p => p.1 == k)).map (fun p => p.2)

/-- `Bucket.reload` (`uzu/db/driver/couchbase/bucket.py` lines 85-95):
`get(entry.key)` — `entry.key` being the schema's `meta.key` property, an
`AttributeError` when the entry has no `meta` — then the value bytes are
decoded (`json.loads` plus the per-field `decode_field` against the
schema's field descriptors, which the spec assigns to the external schema
collaborator, section 6; it is passed in as `decode`, mapping the
response's value bytes to the entry's new document payload or raising,
e.g. on malformed JSON), then `entry.update(data)` and
`entry.meta.cas = response.header.cas`.  Every mutation of the entry
follows all fallible steps in the source, so on failure the entry is
returned as received. -/
def Bucket.reload (decode : Bytes → Except PyError Bytes) (entry : Entry)
    (stream : Bytes) : Entry × Option PyError :=
  match entry.meta with
  | none => (entry, some .attributeError)
  | some m =>
    match Memcached.get m.key stream with
    | .error e => (entry, some e)
    | .ok (response, _unpacked_extra) =>
      match decode response.value with
      | .error e => (entry, some e)
      | .ok data => (⟨some ⟨m.key, response.header.cas⟩, data⟩, none)

/-- `Bucket.load` (`uzu/db/driver/couchbase/bucket.py` lines 65-83): a key
already in the cache is answered from the cache — after an in-place
`reload` of the cached entry when `refresh_cache` is set (the cache keeps
mapping the key to that same, now-updated entry, modelled by writing the
reloaded entry back under the key) — otherwise `get(key)` is issued, the
value decoded (`decode` as in `Bucket.reload`), the entry built, its meta
set to `Meta(key, response.header.cas)` and the entry inserted into the
cache.  The result is the cache, the entry `load` returns, and the
exception if one was raised; an exception propagates before any of the
mutations that follow it in the source. -/
def Bucket.load (decode : Bytes → Except PyError Bytes)
    (cache : List (Bytes × Entry)) (key : Bytes) (refresh_cache : Bool)
    (stream : Bytes) : List (Bytes × Entry) × Option Entry × Option PyError :=
  if dictHasKey cache key then
    if refresh_cache then
      match dictGet cache key with
      | none => (cache, none, some .keyError)
      | some cached =>
        match Bucket.reload decode cached stream with
        | (entry1, none) => (dictSet cache key entry1, some entry1, none)
        | (_, some e) => (cache, none, some e)
    else (cache, dictGet cache key, none)
  else
    match Memcached.get key stream with
    | .error e => (cache, none, some e)
    | .ok (response, _unpacked_extra) =>
      match decode response.value with
      | .error e => (cache, none, some e)
      | .ok data =>
        let entry : Entry := ⟨some ⟨key, response.header.cas⟩, data⟩
        (dictSet cache key entry, some entry, none)

/-- A 24-byte response frame with a given status, no body and an all-zero
CAS: `magic 0x81`, zero key/extra lengths, `body_len 0`. -/
def statusOnlyStream (status : Nat) : Bytes :=
  [0x81, 0, 0, 0, 0, 0, status / 256, status % 256,
   0, 0, 0, 0, 0, 0, 0, 0, 0, 0, 0, 0, 0, 0, 0, 0]

/-- A server answer to `get`: status `0x0000`, a 4-byte extra carrying
`flags = 7`, a 2-byte value `b"hi"` and a non-zero CAS. -/
def getSuccessStream : Bytes :=
  [0x81, 0, 0, 0, 4, 0, 0, 0, 0, 0, 0, 6, 0, 0, 0, 0,
   0, 0, 0, 0, 0, 0, 0, 1] ++ [0, 0, 0, 7] ++ [104, 105]

/-- A server answer to `set`/`add`/`replace`: status `0x0000`, no body,
CAS all zero — the token the remote store must never hand out on a
successful mutation. -/
def zeroCasStream : Bytes :=
  [0x81, 1, 0, 0, 0, 0, 0, 0, 0, 0, 0, 0, 0, 0, 0, 0,
   0, 0, 0, 0, 0, 0, 0, 0]

/-- A server answer to `replace` whose status is `0x0002` — the CAS-conflict
("key exists") status the memcached binary protocol reports when the
supplied CAS no longer matches. -/
def conflictStream : Bytes :=
  [0x81, 3, 0, 0, 0, 0, 0, 2, 0, 0, 0, 0, 0, 0, 0, 0,
   0, 0, 0, 0, 0, 0, 0, 0]

/-- A concrete entry that has already been persisted: key `b"k"`, a
non-zero CAS token, and the two-byte document `b"\x7b\x7d"`. -/
def entryWithMeta : Entry :=
  ⟨some ⟨[107], [1, 2, 3, 4, 5, 6, 7, 8]⟩, [123, 125]⟩

/-- The response that `query` parses out of `statusOnlyStream s` when sent
with opcode 0, an empty extra and value and the key `b"k"`: an empty body,
and the status as decoded from its two big-endian bytes. -/
def c4Response (s : Nat) : Response :=
  ⟨⟨⟨0x80, 0, 1, 0, 0, 0, 1, [0, 0, 0, 0], [0, 0, 0, 0, 0, 0, 0, 0]⟩, [], [107], []⟩,
   ⟨0x81, 0, 0, 0, 0, s / 256 * 256 + s % 256, 0, [0, 0, 0, 0], [0, 0, 0, 0, 0, 0, 0, 0]⟩,
   [], [], []⟩

/-- The request `send_package` builds for opcode 1, extra `[1]`, key `[2]`,
value `[3]` and an all-zero opaque and CAS. -/
def c7Request : Request :=
  ⟨⟨128, 1, 1, 1, 0, 0, 3, [0, 0, 0, 0], [0, 0, 0, 0, 0, 0, 0, 0]⟩, [1], [2], [3]⟩

/-- The bytes written on the stream for `c7Request`: the 24 packed header
bytes followed by extra, key and value. -/
def c7Written : Bytes :=
  [128, 1, 0, 1, 1, 0, 0, 0, 0, 0, 0, 3, 0, 0, 0, 0, 0, 0, 0, 0, 0, 0, 0, 0, 1, 2, 3]

/-- A byte string of length 4 is a four-element list. -/
theorem bytes_len4 {l : Bytes} (h : l.length = 4) :
    ∃ a b c d, l = [a, b, c, d] := by
  cases l with
  | nil => simp only [List.length_nil, List.length_cons] at h; omega
  | cons a t0 =>
  cases t0 with
  | nil => simp only [List.length_nil, List.length_cons] at h; omega
  | cons b t1 =>
  cases t1 with
  | nil => simp only [List.length_nil, List.length_cons] at h; omega
  | cons c t2 =>
  cases t2 with
  | nil => simp only [List.length_nil, List.length_cons] at h; omega
  | cons d t3 =>
  cases t3 with
  | nil => exact ⟨a, b, c, d, rfl⟩
  | cons e t4 => simp only [List.length_cons] at h; omega

/-- A byte string of length 8 is an eight-element list. -/
theorem bytes_len8 {l : Bytes} (h : l.length = 8) :
    ∃ a b c d e f g i, l = [a, b, c, d, e, f, g, i] := by
  cases l with
  | nil => simp only [List.length_nil, List.length_cons] at h; omega
  | cons a t0 =>
  cases t0 with
  | nil => simp only [List.length_nil, List.length_cons] at h; omega
  | cons b t1 =>
  cases t1 with
  | nil => simp only [List.length_nil, List.length_cons] at h; omega
  | cons c t2 =>
  cases t2 with
  | nil => simp only [List.length_nil, List.length_cons] at h; omega
  | cons d t3 =>
  cases t3 with
  | nil => simp only [List.length_nil, List.length_cons] at h; omega
  | cons e t4 =>
  cases t4 with
  | nil => simp only [List.length_nil, List.length_cons] at h; omega
  | cons f t5 =>
  cases t5 with
  | nil => simp only [List.length_nil, List.length_cons] at h; omega
  | cons g t6 =>
  cases t6 with
  | nil => simp only [List.length_nil, List.length_cons] at h; omega
  | cons i t7 =>
  cases t7 with
  | nil => exact ⟨a, b, c, d, e, f, g, i, rfl⟩
  | cons j t8 => simp only [List.length_cons] at h; omega

/-- `beBytes w v` has exactly `w` bytes. -/
theorem beBytes_length (w : Nat) : ∀ v, (beBytes w v).length = w := by
  induction w with
  | zero => intro v; rfl
  | succ n ih =>
    intro v
    simp only [beBytes, List.length_append, List.length_cons, List.length_nil, ih]

/-- `packS k s` has exactly `k` bytes: the `s` format truncates or pads. -/
theorem packS_length (k : Nat) (s : Bytes) : (packS k s).length = k := by
  simp only [packS, List.length_append, List.length_take, List.length_replicate]
  omega

/-- A packed request header is always 24 bytes. -/
theorem requestHeader_pack_length {h : RequestHeader} {packed : Bytes}
    (hp : RequestHeader.pack h = .ok packed) : packed.length = 24 := by
  unfold RequestHeader.pack at hp
  split at hp
  · cases hp
    simp only [List.length_append, beBytes_length, packS_length]
  · exact Except.noConfusion hp

/-- A packed response header is always 24 bytes. -/
theorem responseHeader_pack_length {h : ResponseHeader} {packed : Bytes}
    (hp : ResponseHeader.pack h = .ok packed) : packed.length = 24 := by
  unfold ResponseHeader.pack at hp
  split at hp
  · cases hp
    simp only [List.length_append, beBytes_length, packS_length]
  · exact Except.noConfusion hp

/-- Round trip for the request header layout: any header whose fields fit
their declared widths packs to exactly 24 bytes and unpacks back to the
same fields. -/
theorem requestHeader_roundtrip (h : RequestHeader)
    (h1 : h.magic < 256) (h2 : h.opcode < 256) (h3 : h.key_len < 65536)
    (h4 : h.extra_len < 256) (h5 : h.data_type < 256) (h6 : h.vbucket_id < 65536)
    (h7 : h.body_len < 4294967296) (h8 : h.opq.length = 4) (h9 : h.cas.length = 8) :
    ∃ packed, RequestHeader.pack h = .ok packed ∧ packed.length = 24 ∧
      RequestHeader.unpack packed = .ok h := by
  obtain ⟨m, oc, kl, el, dt, vb, bl, opq, cs⟩ := h
  obtain ⟨o1, o2, o3, o4, rfl⟩ := bytes_len4 h8
  obtain ⟨c1, c2, c3, c4, c5, c6, c7, c8, rfl⟩ := bytes_len8 h9
  replace h1 : m < 256 := h1
  replace h2 : oc < 256 := h2
  replace h3 : kl < 65536 := h3
  replace h4 : el < 256 := h4
  replace h5 : dt < 256 := h5
  replace h6 : vb < 65536 := h6
  replace h7 : bl < 4294967296 := h7
  refine ⟨[m % 256, oc % 256, kl / 256 % 256, kl % 256, el % 256, dt % 256,
    vb / 256 % 256, vb % 256, bl / 256 / 256 / 256 % 256, bl / 256 / 256 % 256,
    bl / 256 % 256, bl % 256, o1, o2, o3, o4, c1, c2, c3, c4, c5, c6, c7, c8],
    ?_, rfl, ?_⟩
  · unfold RequestHeader.pack
    rw [if_pos ⟨h1, h2, h3, h4, h5, h6, h7⟩]
    exact rfl
  · show Except.ok (⟨m % 256, oc % 256, (kl / 256 % 256) * 256 + kl % 256,
      el % 256, dt % 256, (vb / 256 % 256) * 256 + vb % 256,
      ((bl / 256 / 256 / 256 % 256 * 256 + bl / 256 / 256 % 256) * 256 +
        bl / 256 % 256) * 256 + bl % 256,
      [o1, o2, o3, o4], [c1, c2, c3, c4, c5, c6, c7, c8]⟩ : RequestHeader) = _
    rw [Except.ok.injEq, RequestHeader.mk.injEq]
    refine ⟨?_, ?_, ?_, ?_, ?_, ?_, ?_, rfl, rfl⟩ <;> omega

/-- Round trip for the response header layout. -/
theorem responseHeader_roundtrip (h : ResponseHeader)
    (h1 : h.magic < 256) (h2 : h.opcode < 256) (h3 : h.key_len < 65536)
    (h4 : h.extra_len < 256) (h5 : h.data_type < 256) (h6 : h.status < 65536)
    (h7 : h.body_len < 4294967296) (h8 : h.opq.length = 4) (h9 : h.cas.length = 8) :
    ∃ packed, ResponseHeader.pack h = .ok packed ∧ packed.length = 24 ∧
      ResponseHeader.unpack packed = .ok h := by
  obtain ⟨m, oc, kl, el, dt, st, bl, opq, cs⟩ := h
  obtain ⟨o1, o2, o3, o4, rfl⟩ := bytes_len4 h8
  obtain ⟨c1, c2, c3, c4, c5, c6, c7, c8, rfl⟩ := bytes_len8 h9
  replace h1 : m < 256 := h1
  replace h2 : oc < 256 := h2
  replace h3 : kl < 65536 := h3
  replace h4 : el < 256 := h4
  replace h5 : dt < 256 := h5
  replace h6 : st < 65536 := h6
  replace h7 : bl < 4294967296 := h7
  refine ⟨[m % 256, oc % 256, kl / 256 % 256, kl % 256, el % 256, dt % 256,
    st / 256 % 256, st % 256, bl / 256 / 256 / 256 % 256, bl / 256 / 256 % 256,
    bl / 256 % 256, bl % 256, o1, o2, o3, o4, c1, c2, c3, c4, c5, c6, c7, c8],
    ?_, rfl, ?_⟩
  · unfold ResponseHeader.pack
    rw [if_pos ⟨h1, h2, h3, h4, h5, h6, h7⟩]
    exact rfl
  · show Except.ok (⟨m % 256, oc % 256, (kl / 256 % 256) * 256 + kl % 256,
      el % 256, dt % 256, (st / 256 % 256) * 256 + st % 256,
      ((bl / 256 / 256 / 256 % 256 * 256 + bl / 256 / 256 % 256) * 256 +
        bl / 256 % 256) * 256 + bl % 256,
      [o1, o2, o3, o4], [c1, c2, c3, c4, c5, c6, c7, c8]⟩ : ResponseHeader) = _
    rw [Except.ok.injEq, ResponseHeader.mk.injEq]
    refine ⟨?_, ?_, ?_, ?_, ?_, ?_, ?_, rfl, rfl⟩ <;> omega

/-- Claim C3: for every combination of header field values within their
declared byte widths (integer fields below `2^(8w)` for a `w`-byte field,
the opaque and CAS fields being byte strings of their exact lengths),
packing the header succeeds, yields exactly 24 bytes in big-endian order,
and unpacking those bytes restores the original fields — for the request
header layout and for the response header layout alike. -/
theorem uzu_C3 (hq : RequestHeader) (hs : ResponseHeader)
    (h1 : hq.magic < 256) (h2 : hq.opcode < 256) (h3 : hq.key_len < 65536)
    (h4 : hq.extra_len < 256) (h5 : hq.data_type < 256) (h6 : hq.vbucket_id < 65536)
    (h7 : hq.body_len < 4294967296) (h8 : hq.opq.length = 4) (h9 : hq.cas.length = 8)
    (g1 : hs.magic < 256) (g2 : hs.opcode < 256) (g3 : hs.key_len < 65536)
    (g4 : hs.extra_len < 256) (g5 : hs.data_type < 256) (g6 : hs.status < 65536)
    (g7 : hs.body_len < 4294967296) (g8 : hs.opq.length = 4) (g9 : hs.cas.length = 8) :
    (∃ packed, RequestHeader.pack hq = .ok packed ∧ packed.length = 24 ∧
      RequestHeader.unpack packed = .ok hq) ∧
    (∃ packed, ResponseHeader.pack hs = .ok packed ∧ packed.length = 24 ∧
      ResponseHeader.unpack packed = .ok hs) :=
  ⟨requestHeader_roundtrip hq h1 h2 h3 h4 h5 h6 h7 h8 h9,
   responseHeader_roundtrip hs g1 g2 g3 g4 g5 g6 g7 g8 g9⟩

/-- Witness for C3 at a concrete request header (a `set` request) and a
concrete response header. -/
theorem uzu_C3_witness :
    (∃ packed, RequestHeader.pack
        ⟨0x80, 1, 3, 8, 0, 0, 20, [9, 9, 9, 9], [1, 2, 3, 4, 5, 6, 7, 8]⟩ = .ok packed ∧
      packed.length = 24 ∧
      RequestHeader.unpack packed = .ok
        ⟨0x80, 1, 3, 8, 0, 0, 20, [9, 9, 9, 9], [1, 2, 3, 4, 5, 6, 7, 8]⟩) ∧
    (∃ packed, ResponseHeader.pack
        ⟨0x81, 1, 0, 0, 0, 0, 512, [9, 9, 9, 9], [8, 7, 6, 5, 4, 3, 2, 1]⟩ = .ok packed ∧
      packed.length = 24 ∧
      ResponseHeader.unpack packed = .ok
        ⟨0x81, 1, 0, 0, 0, 0, 512, [9, 9, 9, 9], [8, 7, 6, 5, 4, 3, 2, 1]⟩) :=
  uzu_C3 ⟨0x80, 1, 3, 8, 0, 0, 20, [9, 9, 9, 9], [1, 2, 3, 4, 5, 6, 7, 8]⟩
    ⟨0x81, 1, 0, 0, 0, 0, 512, [9, 9, 9, 9], [8, 7, 6, 5, 4, 3, 2, 1]⟩
    (by decide) (by decide) (by decide) (by decide) (by decide) (by decide)
    (by decide) (by decide) (by decide)
    (by decide) (by decide) (by decide) (by decide) (by decide) (by decide)
    (by decide) (by decide) (by decide)

/-- When `send_package` succeeds, the request it returns carries the header
it built — `magic 0x80`, the caller's opcode, lengths measured from the
arguments, `body_len = (extra ++ key ++ value).length` — and the written
bytes are the packed header followed by `extra ++ key ++ value`. -/
theorem send_package_ok_shape {opcode data_type vbucket_id : Nat}
    {extra key value opq cas : Bytes} {request : Request} {written : Bytes}
    (h : Memcached.send_package opcode extra key value data_type vbucket_id opq cas =
      .ok (request, written)) :
    request = ⟨⟨0x80, opcode, key.length, extra.length, data_type, vbucket_id,
        (extra ++ key ++ value).length, opq, cas⟩, extra, key, value⟩ ∧
    ∃ packed, request.header.pack = .ok packed ∧ packed.length = 24 ∧
      written = packed ++ (extra ++ key ++ value) := by
  simp only [Memcached.send_package] at h
  split at h
  · exact Except.noConfusion h
  next packed hp =>
    have hpair := Except.ok.inj h
    rw [Prod.mk.injEq] at hpair
    obtain ⟨hreq, hwr⟩ := hpair
    refine ⟨hreq.symm, packed, ?_, requestHeader_pack_length hp, hwr.symm⟩
    rw [← hreq]
    exact hp

/-- A successful `receive_package` embeds the request it was given in the
response it returns. -/
theorem receive_package_ok_shape {request : Request} {stream : Bytes}
    {response : Response} {rest : Bytes}
    (h : Memcached.receive_package request stream = .ok (response, rest)) :
    response.request = request := by
  unfold Memcached.receive_package at h
  split at h
  · exact Except.noConfusion h
  next packed_header rest1 hsr =>
    split at h
    · exact Except.noConfusion h
    next header hun =>
      split at h
      · exact Except.noConfusion h
      next body rest2 hsr2 =>
        have hpair := Except.ok.inj h
        rw [Prod.mk.injEq] at hpair
        rw [← hpair.1]

/-- A response returned by `query` echoes the request that was sent —
opcode, CAS, key, extra, value and body length — and has status 0. -/
theorem query_ok_shape {opcode : Nat} {extra key value cas stream : Bytes}
    {resp : Response}
    (h : Memcached.query opcode extra key value cas stream = .ok resp) :
    resp.request.header.opcode = opcode ∧ resp.request.header.cas = cas ∧
    resp.request.key = key ∧ resp.request.extra = extra ∧
    resp.request.value = value ∧
    resp.request.header.body_len = (extra ++ key ++ value).length ∧
    resp.header.status = 0 := by
  unfold Memcached.query at h
  split at h
  · exact Except.noConfusion h
  next request written hsend =>
    split at h
    · exact Except.noConfusion h
    next response rest hrecv =>
      split at h
      · split at h <;> split at h <;> exact Except.noConfusion h
      next hst =>
        cases Except.ok.inj h
        have hrr := receive_package_ok_shape hrecv
        obtain ⟨hreq, -⟩ := send_package_ok_shape hsend
        rw [hrr, hreq]
        exact ⟨rfl, rfl, rfl, rfl, rfl, rfl, not_not.mp hst⟩

/-- A successful `replace` sent opcode 3 with the caller's key, value and
CAS, and saw status 0. -/
theorem replace_ok_shape {key value cas : Bytes} {flags expiration : Nat}
    {stream : Bytes} {resp : Response}
    (h : Memcached.replace key value cas flags expiration stream = .ok resp) :
    resp.request.header.opcode = 3 ∧ resp.request.header.cas = cas ∧
    resp.request.key = key ∧ resp.request.value = value ∧
    resp.header.status = 0 := by
  unfold Memcached.replace at h
  split at h
  · exact Except.noConfusion h
  · split at h
    · exact Except.noConfusion h
    next extra hex =>
      split at h
      · exact Except.noConfusion h
      next response hq =>
        split at h
        · cases Except.ok.inj h
          have hs := query_ok_shape hq
          exact ⟨hs.1, hs.2.1, hs.2.2.1, hs.2.2.2.2.1, hs.2.2.2.2.2.2⟩
        · exact Except.noConfusion h

/-- A successful `add` sent opcode 2 with the caller's key, value and CAS,
and saw status 0. -/
theorem add_ok_shape {key value cas : Bytes} {flags expiration : Nat}
    {stream : Bytes} {resp : Response}
    (h : Memcached.add key value cas flags expiration stream = .ok resp) :
    resp.request.header.opcode = 2 ∧ resp.request.header.cas = cas ∧
    resp.request.key = key ∧ resp.request.value = value ∧
    resp.header.status = 0 := by
  unfold Memcached.add at h
  split at h
  · exact Except.noConfusion h
  · split at h
    · exact Except.noConfusion h
    next extra hex =>
      split at h
      · exact Except.noConfusion h
      next response hq =>
        split at h
        · cases Except.ok.inj h
          have hs := query_ok_shape hq
          exact ⟨hs.1, hs.2.1, hs.2.2.1, hs.2.2.2.2.1, hs.2.2.2.2.2.2⟩
        · exact Except.noConfusion h

/-- Claim C7: for every request constructed and sent by `send_package`,
whatever the extra, key and value arguments, the header's `body_len` field
equals `len(extra) + len(key) + len(value)`, and the bytes written after
the 24 header bytes are exactly `extra ++ key ++ value`. -/
theorem uzu_C7 {opcode data_type vbucket_id : Nat}
    {extra key value opq cas : Bytes} {request : Request} {written : Bytes}
    (h : Memcached.send_package opcode extra key value data_type vbucket_id opq cas =
      .ok (request, written)) :
    request.header.body_len = extra.length + key.length + value.length ∧
    ∃ packedHeader, request.header.pack = .ok packedHeader ∧
      packedHeader.length = 24 ∧
      written = packedHeader ++ (extra ++ key ++ value) ∧
      written.drop 24 = extra ++ key ++ value := by
  obtain ⟨hreq, packed, hp, hlen, hw⟩ := send_package_ok_shape h
  refine ⟨?_, packed, hp, hlen, hw, ?_⟩
  · rw [hreq]
    simp [List.length_append, Nat.add_assoc]
  · rw [hw, ← hlen, List.drop_left]

/-- Witness for C7 at opcode 1, extra `[1]`, key `[2]`, value `[3]`. -/
theorem uzu_C7_witness :
    c7Request.header.body_len = ([1] : Bytes).length + ([2] : Bytes).length +
      ([3] : Bytes).length ∧
    ∃ packedHeader, c7Request.header.pack = .ok packedHeader ∧
      packedHeader.length = 24 ∧
      c7Written = packedHeader ++ ([1] ++ [2] ++ [3]) ∧
      c7Written.drop 24 = [1] ++ [2] ++ [3] :=
  uzu_C7 (by decide :
    Memcached.send_package 1 [1] [2] [3] 0 0 [0, 0, 0, 0] (List.replicate 8 0) =
      .ok (c7Request, c7Written))

/-- `natToHexBE w v` has exactly `w` characters. -/
theorem natToHexBE_length (w : Nat) : ∀ v, (natToHexBE w v).length = w := by
  induction w with
  | zero => intro v; rfl
  | succ n ih =>
    intro v
    simp only [natToHexBE, List.length_append, List.length_cons, List.length_nil, ih]

/-- Every character `natToHexBE` produces is a lowercase hexadecimal digit:
ASCII `0`-`9` (48-57) or ASCII `a`-`f` (97-102). -/
theorem natToHexBE_digits (w : Nat) : ∀ v, ∀ c ∈ natToHexBE w v,
    (48 ≤ c ∧ c ≤ 57) ∨ (97 ≤ c ∧ c ≤ 102) := by
  induction w with
  | zero => intro v c hc; exact absurd hc (List.not_mem_nil c)
  | succ n ih =>
    intro v c hc
    rw [natToHexBE, List.mem_append] at hc
    cases hc with
    | inl h => exact ih (v / 16) c h
    | inr h =>
      rw [List.mem_singleton] at h
      subst h
      have hlt : v % 16 < 16 := Nat.mod_lt v (by omega)
      unfold hexDigit
      split <;> omega

/-- `hexDigitValue` is a left inverse of `hexDigit`. -/
theorem hexDigitValue_hexDigit (d : Nat) : hexDigitValue (hexDigit d) = d := by
  unfold hexDigit hexDigitValue
  by_cases hd : d < 10
  · rw [if_pos hd]; split <;> omega
  · rw [if_neg hd]; split <;> omega

/-- Folding the hexadecimal value over `natToHexBE w v` from any
accumulator recovers `v` modulo `16 ^ w`. -/
theorem hexValue_aux (w : Nat) : ∀ v acc,
    (natToHexBE w v).foldl (fun a c => a * 16 + hexDigitValue c) acc =
      acc * 16 ^ w + v % 16 ^ w := by
  induction w with
  | zero => intro v acc; simp [natToHexBE, Nat.mod_one]
  | succ n ih =>
    intro v acc
    rw [natToHexBE, List.foldl_append, ih]
    simp only [List.foldl_cons, List.foldl_nil, hexDigitValue_hexDigit]
    have h1 : (16 : Nat) ^ (n + 1) = 16 * 16 ^ n := by
      rw [pow_succ, Nat.mul_comm]
    rw [h1, Nat.mod_mul]
    ring

/-- The hexadecimal rendering is faithful: reading `uuid4Hex u` back as a
hexadecimal number yields `u`, for any 128-bit `u`. -/
theorem hexValue_uuid4Hex (u : Nat) (hu : u < 2 ^ 128) :
    hexValue (uuid4Hex u) = u := by
  have h16 : (16 : Nat) ^ 32 = 2 ^ 128 := by norm_num
  unfold hexValue uuid4Hex
  rw [hexValue_aux 32 u 0, Nat.zero_mul, Nat.zero_add, h16]
  exact Nat.mod_eq_of_lt hu

/-- Claim C1 (amended): for every entry that already carries a concurrency
token, `store(entry)` issues `replace` with the entry's key and that token
— its whole behaviour is one `replace` exchange, so there is no automatic
retry — and on success updates the token from the response; but when the
replace fails with the CAS-conflict status `0x0002` the operation fails
with the protocol-layer `RequestError("key exist")`: the code defines no
distinct `ConflictError` kind. -/
theorem uzu_C1 (cache : List (Bytes × Entry)) (entry : Entry) (m : Meta)
    (uuid : Nat) (stream : Bytes) (hm : entry.meta = some m) :
    (Bucket.store cache entry uuid stream =
      match Memcached.replace m.key entry.payload m.cas 0 0 stream with
      | .error e => (cache, entry, some e)
      | .ok response =>
        (cache, { entry with meta := some ⟨m.key, response.header.cas⟩ }, none)) ∧
    (∀ response, Memcached.replace m.key entry.payload m.cas 0 0 stream = .ok response →
      response.request.header.opcode = 3 ∧ response.request.header.cas = m.cas ∧
      response.request.key = m.key) ∧
    Bucket.store [] entryWithMeta 0 conflictStream =
      ([], entryWithMeta, some (.requestError "key exist")) := by
  refine ⟨?_, ?_, by decide⟩
  · unfold Bucket.store
    rw [hm]
  · intro response hr
    have hs := replace_ok_shape hr
    exact ⟨hs.1, hs.2.1, hs.2.2.1⟩

/-- Witness for C1 at the concrete persisted entry `entryWithMeta` and the
conflict-status stream. -/
theorem uzu_C1_witness :
    (Bucket.store [] entryWithMeta 0 conflictStream =
      match Memcached.replace [107] [123, 125] [1, 2, 3, 4, 5, 6, 7, 8] 0 0
          conflictStream with
      | .error e => ([], entryWithMeta, some e)
      | .ok response =>
        ([], { entryWithMeta with meta := some ⟨[107], response.header.cas⟩ }, none)) ∧
    (∀ response, Memcached.replace [107] [123, 125] [1, 2, 3, 4, 5, 6, 7, 8] 0 0
        conflictStream = .ok response →
      response.request.header.opcode = 3 ∧
      response.request.header.cas = [1, 2, 3, 4, 5, 6, 7, 8] ∧
      response.request.key = [107]) ∧
    Bucket.store [] entryWithMeta 0 conflictStream =
      ([], entryWithMeta, some (.requestError "key exist")) :=
  uzu_C1 [] entryWithMeta ⟨[107], [1, 2, 3, 4, 5, 6, 7, 8]⟩ 0 conflictStream rfl

/-- Counterexample to C1 as stated: with a token present and the server
answering the CAS-conflict status `0x0002`, `store` fails with a
`RequestError` — a `RequestError`, not some distinct conflict kind: the
repository defines no `ConflictError` class at all. -/
theorem uzu_C1_cex :
    Bucket.store [] entryWithMeta 0 conflictStream =
      ([], entryWithMeta, some (.requestError "key exist")) ∧
    (PyError.requestError "key exist").isRequestError = true ∧
    PyError.requestError "key exist" ≠ PyError.specConflictError := by decide

/-- Claim C8: for every never-persisted entry (no token), `store(entry)`
issues `add` with a freshly generated client-side key — the 128-bit
identifier rendered as 32 lowercase hexadecimal characters — and on
success sets the entry's meta from the generated key and the response's
CAS and inserts the entry in the cache under that key. -/
theorem uzu_C8 (cache : List (Bytes × Entry)) (entry : Entry) (uuid : Nat)
    (stream : Bytes) (hm : entry.meta = none) (hu : uuid < 2 ^ 128) :
    (Bucket.store cache entry uuid stream =
      match Memcached.add (uuid4Hex uuid) entry.payload (List.replicate 8 0) 0 0
          stream with
      | .error e => (cache, entry, some e)
      | .ok response =>
        (dictSet cache (uuid4Hex uuid)
            { entry with meta := some ⟨uuid4Hex uuid, response.header.cas⟩ },
          { entry with meta := some ⟨uuid4Hex uuid, response.header.cas⟩ }, none)) ∧
    (uuid4Hex uuid).length = 32 ∧
    (∀ c ∈ uuid4Hex uuid, (48 ≤ c ∧ c ≤ 57) ∨ (97 ≤ c ∧ c ≤ 102)) ∧
    hexValue (uuid4Hex uuid) = uuid ∧
    (∀ response, Memcached.add (uuid4Hex uuid) entry.payload (List.replicate 8 0) 0 0
        stream = .ok response →
      response.request.header.opcode = 2 ∧ response.request.key = uuid4Hex uuid) := by
  refine ⟨?_, natToHexBE_length 32 uuid, natToHexBE_digits 32 uuid,
    hexValue_uuid4Hex uuid hu, ?_⟩
  · unfold Bucket.store
    rw [hm]
  · intro response hr
    have hs := add_ok_shape hr
    exact ⟨hs.1, hs.2.2.1⟩

/-- Witness for C8: key generation at the concrete identifier 5. -/
theorem uzu_C8_witness :
    (uuid4Hex 5).length = 32 ∧ hexValue (uuid4Hex 5) = 5 :=
  ⟨(uzu_C8 [] ⟨none, [123, 125]⟩ 5 [] rfl (by norm_num)).2.1,
   (uzu_C8 [] ⟨none, [123, 125]⟩ 5 [] rfl (by norm_num)).2.2.2.1⟩

/-- Claim C9: when any document-cache operation — `store`, `remove`,
`load` or `reload` — fails with an error raised below the mutation points
(in particular any protocol-layer failure), the cache mapping and the
entry — hence its stored token — are returned unchanged: the token is
updated only after a success status has been received. -/
theorem uzu_C9 (decode : Bytes → Except PyError Bytes)
    (cache : List (Bytes × Entry)) (entry : Entry) (key : Bytes) (uuid : Nat)
    (refresh : Bool) (stream : Bytes) (cache2 : List (Bytes × Entry))
    (entry2 : Entry) (ret : Option Entry) (e : PyError) :
    (Bucket.store cache entry uuid stream = (cache2, entry2, some e) →
      cache2 = cache ∧ entry2 = entry) ∧
    (Bucket.remove cache entry stream = (cache2, entry2, some e) →
      cache2 = cache ∧ entry2 = entry) ∧
    (Bucket.load decode cache key refresh stream = (cache2, ret, some e) →
      cache2 = cache) ∧
    (Bucket.reload decode entry stream = (entry2, some e) →
      entry2 = entry) := by
  refine ⟨?_, ?_, ?_, ?_⟩
  · intro h
    unfold Bucket.store at h
    split at h
    · split at h
      · rw [Prod.mk.injEq, Prod.mk.injEq] at h
        exact ⟨h.1.symm, h.2.1.symm⟩
      · rw [Prod.mk.injEq, Prod.mk.injEq] at h
        exact Option.noConfusion h.2.2
    · split at h
      · rw [Prod.mk.injEq, Prod.mk.injEq] at h
        exact ⟨h.1.symm, h.2.1.symm⟩
      · rw [Prod.mk.injEq, Prod.mk.injEq] at h
        exact Option.noConfusion h.2.2
  · intro h
    unfold Bucket.remove at h
    split at h
    · rw [Prod.mk.injEq, Prod.mk.injEq] at h
      exact ⟨h.1.symm, h.2.1.symm⟩
    · split at h
      · rw [Prod.mk.injEq, Prod.mk.injEq] at h
        exact ⟨h.1.symm, h.2.1.symm⟩
      · split at h
        · rw [Prod.mk.injEq, Prod.mk.injEq] at h
          exact Option.noConfusion h.2.2
        · rw [Prod.mk.injEq, Prod.mk.injEq] at h
          exact ⟨h.1.symm, h.2.1.symm⟩
  · intro h
    unfold Bucket.load at h
    split at h
    · split at h
      · split at h
        · rw [Prod.mk.injEq, Prod.mk.injEq] at h
          exact h.1.symm
        · split at h
          · rw [Prod.mk.injEq, Prod.mk.injEq] at h
            exact Option.noConfusion h.2.2
          · rw [Prod.mk.injEq, Prod.mk.injEq] at h
            exact h.1.symm
      · rw [Prod.mk.injEq, Prod.mk.injEq] at h
        exact Option.noConfusion h.2.2
    · split at h
      · rw [Prod.mk.injEq, Prod.mk.injEq] at h
        exact h.1.symm
      · split at h
        · rw [Prod.mk.injEq, Prod.mk.injEq] at h
          exact h.1.symm
        · rw [Prod.mk.injEq, Prod.mk.injEq] at h
          exact Option.noConfusion h.2.2
  · intro h
    unfold Bucket.reload at h
    split at h
    · rw [Prod.mk.injEq] at h
      exact h.1.symm
    · split at h
      · rw [Prod.mk.injEq] at h
        exact h.1.symm
      · split at h
        · rw [Prod.mk.injEq] at h
          exact h.1.symm
        · rw [Prod.mk.injEq] at h
          exact Option.noConfusion h.2

/-- Witness for C9: a store and a load whose exchanges die on an empty
stream leave the empty cache and the entry as they were. -/
theorem uzu_C9_witness :
    (([] : List (Bytes × Entry)) = [] ∧ entryWithMeta = entryWithMeta) ∧
    ([] : List (Bytes × Entry)) = [] :=
  ⟨(uzu_C9 (fun v => .ok v) [] entryWithMeta [107] 0 false [] [] entryWithMeta
      none .streamEnded).1 (by decide),
   (uzu_C9 (fun v => .ok v) [] entryWithMeta [107] 0 false [] [] entryWithMeta
      none .streamEnded).2.2.1 (by decide)⟩

set_option maxRecDepth 8000 in
set_option maxHeartbeats 2000000 in
/-- Claim C4 (amended): for any 16-bit status answered by the server,
status `0x0000` makes `query` return the response; any other status makes
`query` raise instead of returning a partial result; and whenever the
status is one the client's fixed `status_reason` table knows, the raise is
a `RequestError` at or below the `0x0080` threshold and a `ServerError`
above it — while a non-zero status missing from the table raises the
table lookup's `KeyError` instead of either typed error. -/
theorem uzu_C4 (status : Nat) (hst : status < 65536) :
    (status = 0 → ∃ resp,
      Memcached.query 0 [] [107] [] (List.replicate 8 0) (statusOnlyStream status) =
        .ok resp ∧ resp.header.status = 0) ∧
    (status ≠ 0 → ∃ e,
      Memcached.query 0 [] [107] [] (List.replicate 8 0) (statusOnlyStream status) =
        .error e) ∧
    (∀ reason, status_reason status = some reason → status ≠ 0 → status ≤ 0x80 →
      Memcached.query 0 [] [107] [] (List.replicate 8 0) (statusOnlyStream status) =
        .error (.requestError reason)) ∧
    (∀ reason, status_reason status = some reason → 0x80 < status →
      Memcached.query 0 [] [107] [] (List.replicate 8 0) (statusOnlyStream status) =
        .error (.serverError reason)) ∧
    (status ≠ 0 → status_reason status = none →
      Memcached.query 0 [] [107] [] (List.replicate 8 0) (statusOnlyStream status) =
        .error .keyError) := by
  have hds : status / 256 * 256 + status % 256 = status := by omega
  have hred : Memcached.query 0 [] [107] [] (List.replicate 8 0)
      (statusOnlyStream status) =
      (if status / 256 * 256 + status % 256 ≠ 0 then
        if status / 256 * 256 + status % 256 > 0x80 then
          match status_reason (status / 256 * 256 + status % 256) with
          | some reason => .error (.serverError reason)
          | none => .error .keyError
        else
          match status_reason (status / 256 * 256 + status % 256) with
          | some reason => .error (.requestError reason)
          | none => .error .keyError
      else .ok (c4Response status)) := rfl
  rw [hds] at hred
  refine ⟨?_, ?_, ?_, ?_, ?_⟩
  · intro h0
    refine ⟨c4Response status, ?_, ?_⟩
    · rw [hred, if_neg (by omega)]
    · show status / 256 * 256 + status % 256 = 0
      omega
  · intro hne
    rw [hred, if_pos hne]
    by_cases h8 : status > 0x80
    · rw [if_pos h8]
      cases hsr : status_reason status with
      | none => exact ⟨.keyError, rfl⟩
      | some r => exact ⟨.serverError r, rfl⟩
    · rw [if_neg h8]
      cases hsr : status_reason status with
      | none => exact ⟨.keyError, rfl⟩
      | some r => exact ⟨.requestError r, rfl⟩
  · intro reason hsr hne hle
    rw [hred, if_pos hne, if_neg (by omega), hsr]
  · intro reason hsr h8
    rw [hred, if_pos (by omega), if_pos h8, hsr]
  · intro hne hsr
    rw [hred, if_pos hne]
    by_cases h8 : status > 0x80
    · rw [if_pos h8, hsr]
    · rw [if_neg h8, hsr]

/-- Witness for C4 at status `0x0001` (key not found), a low-range status
present in the table. -/
theorem uzu_C4_witness :
    Memcached.query 0 [] [107] [] (List.replicate 8 0) (statusOnlyStream 1) =
      .error (.requestError "key not found") :=
  (uzu_C4 1 (by decide)).2.2.1 "key not found" rfl (by decide) (by decide)

/-- Counterexample to C4 as stated: the status `0x000A` is non-zero and
below the threshold, yet `query` raises the table lookup's `KeyError`,
which is neither a `RequestError` nor a `ServerError`. -/
theorem uzu_C4_cex :
    Memcached.query 0 [] [107] [] (List.replicate 8 0) (statusOnlyStream 0x000A) =
      .error .keyError ∧
    PyError.keyError.isRequestError = false ∧
    PyError.keyError.isServerError = false := by decide

/-- Claim C10: the non-zero statuses `0x0022`, `0x0080` and `0x0010` are
absent from the client's `status_reason` table, so `query` raises the
lookup's `KeyError` for them — not a `RequestError` or a `ServerError` —
and callers cannot rely on every protocol failure being one of the two
typed error kinds. -/
theorem uzu_C10 :
    status_reason 0x0022 = none ∧ status_reason 0x0080 = none ∧
    status_reason 0x0010 = none ∧
    Memcached.query 0 [] [107] [] (List.replicate 8 0) (statusOnlyStream 0x0022) =
      .error .keyError ∧
    Memcached.query 0 [] [107] [] (List.replicate 8 0) (statusOnlyStream 0x0080) =
      .error .keyError ∧
    Memcached.query 0 [] [107] [] (List.replicate 8 0) (statusOnlyStream 0x0010) =
      .error .keyError ∧
    PyError.keyError.isRequestError = false ∧
    PyError.keyError.isServerError = false := by decide

/-- Claim C2, evaluated at its failing input: the server answers a `get`
for the non-empty key `b"k"` with success status, a 4-byte extra (flags 7)
and the value `b"hi"`; the `query` succeeds with exactly those bytes, but
`get` raises an `AssertionError` instead of returning them, because
`GetExtra`'s fields tuple is the five-character string `"flags"` and
`StructureBase.__init__` receives one positional argument against five
slots. -/
theorem uzu_C2 :
    (Memcached.query 0 [] [107] [] (List.replicate 8 0) getSuccessStream).toOption.map
      (fun r => (r.header.status, r.extra, r.value)) = some (0, [0, 0, 0, 7], [104, 105]) ∧
    GetExtra.unpack [0, 0, 0, 7] = .error .assertionError ∧
    structInit getExtraSlots [7] = .error .assertionError ∧
    Memcached.get [107] getSuccessStream = .error .assertionError := by decide

/-- Claim C5, evaluated at its failing input: every write-class command
does assert a non-empty key before sending (the first four conjuncts),
but a success response whose CAS is eight zero bytes sails through
`assert(response.header.cas)` — Python truthiness of a non-empty byte
string is `True` whatever its content — so `set` returns the all-zero
token instead of failing. -/
theorem uzu_C5 :
    Memcached.set [] [] (List.replicate 8 0) 0 0 zeroCasStream = .error .assertionError ∧
    Memcached.add [] [] (List.replicate 8 0) 0 0 zeroCasStream = .error .assertionError ∧
    Memcached.replace [] [] (List.replicate 8 0) 0 0 zeroCasStream = .error .assertionError ∧
    Memcached.delete [] zeroCasStream = .error .assertionError ∧
    pyBytesTruthy (List.replicate 8 0) = true ∧
    (Memcached.set [107] [] (List.replicate 8 0) 0 0 zeroCasStream).toOption.map
      (fun r => r.header.cas) = some (List.replicate 8 0) := by decide

/-- Claim C6 (amended): encoding a header or extra layout fails when any
field's value does not fit its declared byte width — any of the 1-byte
fields (magic, opcode, extra length, data type) at 256 or above, either
2-byte field (key length, vbucket id on requests, status on responses) at
65536 or above, the 4-byte body length at `2^32` or above, and either
4-byte `SetExtra` field (flags, expiration) at `2^32` or above — and
decoding fails when fewer bytes than the layout's fixed size are supplied
— but the failure is the packing library's `struct.error`: the repository
defines no `FormatError` class. -/
theorem uzu_C6 :
    (∀ h : RequestHeader,
      256 ≤ h.magic ∨ 256 ≤ h.opcode ∨ 65536 ≤ h.key_len ∨ 256 ≤ h.extra_len ∨
        256 ≤ h.data_type ∨ 65536 ≤ h.vbucket_id ∨ 4294967296 ≤ h.body_len →
      RequestHeader.pack h = .error .structError) ∧
    (∀ h : ResponseHeader,
      256 ≤ h.magic ∨ 256 ≤ h.opcode ∨ 65536 ≤ h.key_len ∨ 256 ≤ h.extra_len ∨
        256 ≤ h.data_type ∨ 65536 ≤ h.status ∨ 4294967296 ≤ h.body_len →
      ResponseHeader.pack h = .error .structError) ∧
    (∀ flags expiration : Nat, 4294967296 ≤ flags ∨ 4294967296 ≤ expiration →
      SetExtra.pack flags expiration = .error .structError) ∧
    (∀ data : Bytes, data.length < 24 →
      RequestHeader.unpack data = .error .structError) ∧
    (∀ data : Bytes, data.length < 24 →
      ResponseHeader.unpack data = .error .structError) ∧
    (∀ data : Bytes, data.length < 4 →
      GetExtra.unpack data = .error .structError) := by
  refine ⟨?_, ?_, ?_, ?_, ?_, ?_⟩
  · intro h hover
    unfold RequestHeader.pack
    refine if_neg (fun hcon => ?_)
    obtain ⟨c1, c2, c3, c4, c5, c6, c7⟩ := hcon
    rcases hover with hv | hv | hv | hv | hv | hv | hv <;> omega
  · intro h hover
    unfold ResponseHeader.pack
    refine if_neg (fun hcon => ?_)
    obtain ⟨c1, c2, c3, c4, c5, c6, c7⟩ := hcon
    rcases hover with hv | hv | hv | hv | hv | hv | hv <;> omega
  · intro flags expiration hover
    unfold SetExtra.pack
    refine if_neg (fun hcon => ?_)
    obtain ⟨c1, c2⟩ := hcon
    rcases hover with hv | hv <;> omega
  · intro data hd
    unfold RequestHeader.unpack
    exact if_neg (by omega)
  · intro data hd
    unfold ResponseHeader.unpack
    exact if_neg (by omega)
  · intro data hd
    unfold GetExtra.unpack
    exact if_neg (by omega)

/-- Witness for C6: a request header whose key length needs more than two
bytes, a response header whose magic needs more than one byte, an
expiration needing more than four bytes, and a three-byte decode input. -/
theorem uzu_C6_witness :
    RequestHeader.pack ⟨0x80, 1, 70000, 0, 0, 0, 0, [0, 0, 0, 0],
      [0, 0, 0, 0, 0, 0, 0, 0]⟩ = .error .structError ∧
    ResponseHeader.pack ⟨300, 1, 0, 0, 0, 0, 0, [0, 0, 0, 0],
      [0, 0, 0, 0, 0, 0, 0, 0]⟩ = .error .structError ∧
    SetExtra.pack 0 4294967296 = .error .structError ∧
    RequestHeader.unpack [1, 2, 3] = .error .structError :=
  ⟨uzu_C6.1 ⟨0x80, 1, 70000, 0, 0, 0, 0, [0, 0, 0, 0], [0, 0, 0, 0, 0, 0, 0, 0]⟩
      (by decide),
   uzu_C6.2.1 ⟨300, 1, 0, 0, 0, 0, 0, [0, 0, 0, 0], [0, 0, 0, 0, 0, 0, 0, 0]⟩
      (by decide),
   uzu_C6.2.2.1 0 4294967296 (by decide),
   uzu_C6.2.2.2.1 [1, 2, 3] (by decide)⟩

/-- Counterexample to C6 as stated: the failure raised for an over-wide
field is `struct.error` — not a `FormatError`, no class of that name
existing in the repository. -/
theorem uzu_C6_cex :
    RequestHeader.pack ⟨0x80, 1, 70000, 0, 0, 0, 0, [0, 0, 0, 0],
      [0, 0, 0, 0, 0, 0, 0, 0]⟩ = .error .structError ∧
    RequestHeader.unpack [1, 2] = .error .structError ∧
    PyError.structError ≠ PyError.specFormatError := by decide

end Uzu
